import Mathlib

/-!
Verification of `veo3_1_prompt_studio.py`, a small Streamlit form editor
that structures a free-text video idea into a fixed schema via one
generative-model call, lets the user edit the fields, and exports the
result as a JSON file.

The data model (`ProjectMeta`, `VideoElements`, `AudioElements`,
`TechnicalSettings`, `VeoData`) is embedded as Lean structures; the
structuring service `generate_veo_structure` and the per-rerun editing
pass of `main` are embedded as pure functions over an explicit outcome
of the external model call and explicit widget inputs.
-/

/-- `ProjectMeta` (pydantic `BaseModel`): `title` and `created_at`,
both strings. -/
structure ProjectMeta where
  title : String
  created_at : String
deriving DecidableEq, Repr

/-- `VideoElements`: the five free-text video fields. -/
structure VideoElements where
  subject : String
  action : String
  context : String
  cinematography : String
  style : String
deriving DecidableEq, Repr

/-- `AudioElements`: the three free-text audio fields. -/
structure AudioElements where
  ambient_music : String
  sfx : String
  dialogue : String
deriving DecidableEq, Repr

/-- `TechnicalSettings`: aspect ratio, duration in seconds, resolution
(field declaration order of the source: aspect_ratio, duration_sec,
resolution). -/
structure TechnicalSettings where
  aspect_ratio : String
  duration_sec : Int
  resolution : String
deriving DecidableEq, Repr

/-- `VeoData`: the root aggregate owning the four sub-records. -/
structure VeoData where
  project_meta : ProjectMeta
  video_5_elements : VideoElements
  audio_3_elements : AudioElements
  technical_settings : TechnicalSettings
deriving DecidableEq, Repr

/-- The outcome of the single `client.models.generate_content` call and
subsequent parse in `generate_veo_structure`: either a schema-valid
`VeoData` (`response.parsed`), or any raised exception (network failure,
credential rejection, malformed or schema-invalid output), carried as its
message string. -/
inductive ModelOutcome where
  | parsed (data : VeoData)
  | failed (err : String)
deriving DecidableEq, Repr

/-- `generate_veo_structure` (source lines 48-92), given the outcome of
the model call.  `now_iso` stands for `datetime.now().isoformat()`, the
ISO-8601 timestamp taken at the moment of successful parse.  On success
it overwrites `created_at` with `now_iso` and `title` with `user_title`
and returns the data; on failure it catches the exception, reports one
`st.error` message and returns `None`.  The returned list is the list of
error messages displayed. -/
def generate_veo_structure (outcome : ModelOutcome) (user_title now_iso : String) :
    Option VeoData × List String :=
  match outcome with
  | .parsed parsed_data =>
      (some { parsed_data with
                project_meta := { parsed_data.project_meta with
                                    created_at := now_iso
                                    title := user_title } },
       [])
  | .failed e => (none, ["Gemini API Error: " ++ e])

/-- The structure-button handler in `main` (source lines 133-141): call
`generate_veo_structure` and replace the session `veo_data` only when a
result was returned; on `None` the session state is left untouched.
Returns the new session state and the displayed error messages. -/
def run_structure_button (session : VeoData) (outcome : ModelOutcome)
    (user_title now_iso : String) : VeoData × List String :=
  let r := generate_veo_structure outcome user_title now_iso
  match r.1 with
  | some result => (result, r.2)
  | none => (session, r.2)

/-- C1 -- On a successful structuring call, the returned
`PromptSpecification` carries exactly the caller-supplied title (the
model's suggestion is discarded) and `created_at` equal to the ISO-8601
timestamp taken at the moment of successful parse, while the eight
narrative fields and the technical settings are the model's. -/
theorem generate_success_overwrites_title_and_created_at
    (parsed_data : VeoData) (user_title now_iso : String) :
    ∃ v : VeoData,
      (generate_veo_structure (.parsed parsed_data) user_title now_iso).1 = some v ∧
      v.project_meta.title = user_title ∧
      v.project_meta.created_at = now_iso ∧
      v.video_5_elements = parsed_data.video_5_elements ∧
      v.audio_3_elements = parsed_data.audio_3_elements ∧
      v.technical_settings = parsed_data.technical_settings := by
  exact ⟨_, rfl, rfl, rfl, rfl, rfl, rfl⟩

/-- C2 -- On a failing structuring call (any exception: network failure,
credential rejection, malformed or schema-invalid output), the service
catches the exception (the embedding is total, so nothing propagates to
the caller's caller), reports exactly one error description, returns the
no-result signal `none`, and the previously held session
`PromptSpecification` is returned unchanged, field for field. -/
theorem generate_failure_reports_and_preserves_session
    (session : VeoData) (e user_title now_iso : String) :
    (generate_veo_structure (.failed e) user_title now_iso).1 = none ∧
    (run_structure_button session (.failed e) user_title now_iso).1 = session ∧
    (run_structure_button session (.failed e) user_title now_iso).2 =
      ["Gemini API Error: " ++ e] ∧
    (run_structure_button session (.failed e) user_title now_iso).2.length = 1 := by
  exact ⟨rfl, rfl, rfl, rfl⟩

/-! ## The per-rerun editing pass of `main` (source lines 145-209)

On every Streamlit rerun, the script reads one value from each widget
(the widgets are initialised from the current session state but may have
been edited by the user) and writes all of them back into
`st.session_state.veo_data`, finishing with the title synchronisation
`st.session_state.veo_data.project_meta.title = title_input`
(line 209).  `created_at` has no widget and is never written here. -/

/-- The value of each editing widget at the end of a rerun (the user's
current entry; unedited widgets hold the value they were initialised
with).  `dur_entry` is what stands in the Duration number field before
the widget applies its own bounds. -/
structure WidgetInputs where
  title_input : String
  new_subject : String
  new_action : String
  new_context : String
  new_cine : String
  new_style : String
  new_music : String
  new_sfx : String
  new_dialogue : String
  new_ar : String
  new_res : String
  dur_entry : Int
deriving DecidableEq, Repr

/-- Modelled from the spec: `st.number_input(..., min_value=1,
max_value=60)` is a Streamlit library widget not present in `src/`; per
the spec the editing surface "constrains input to this range by
construction", i.e. the value the widget hands back always lies within
`[min_value, max_value]`, out-of-range entries being clamped to the
nearest bound. -/
def number_input (entry min_value max_value : Int) : Int :=
  min max_value (max min_value entry)

/-- The Duration widget of line 201: `st.number_input("Duration (sec)",
value=t_data.duration_sec, min_value=1, max_value=60)`. -/
def duration_widget (entry : Int) : Int :=
  number_input entry 1 60

/-- One full editing pass over the session state (source lines 145-209):
every widget value is written back into the corresponding field, and
`project_meta.title` is synchronised to `title_input`. -/
def edit_pass (session : VeoData) (w : WidgetInputs) : VeoData :=
  { session with
      video_5_elements :=
        { subject := w.new_subject
          action := w.new_action
          context := w.new_context
          cinematography := w.new_cine
          style := w.new_style }
      audio_3_elements :=
        { ambient_music := w.new_music
          sfx := w.new_sfx
          dialogue := w.new_dialogue }
      technical_settings :=
        { aspect_ratio := w.new_ar
          duration_sec := duration_widget w.dur_entry
          resolution := w.new_res }
      project_meta := { session.project_meta with title := w.title_input } }

/-- C8 -- At the end of every editing pass the root record's
`project_meta.title` equals the externally tracked current project name
(the user-editable `title_input` field): line 209 synchronises the two
on every rerun, so they are never unequal when the pass ends. -/
theorem edit_pass_syncs_title (session : VeoData) (w : WidgetInputs) :
    (edit_pass session w).project_meta.title = w.title_input := by
  rfl

/-- C9 -- No field-level user edit (video elements, audio elements,
aspect ratio, resolution, duration, or title) touches
`project_meta.created_at`: the editing pass writes every widget-backed
field yet leaves `created_at` exactly as the session held it; only the
wholesale replacement performed by a successful structuring call writes
that field. -/
theorem edit_pass_preserves_created_at (session : VeoData) (w : WidgetInputs) :
    (edit_pass session w).project_meta.created_at =
      session.project_meta.created_at := by
  rfl

/-! ## The guarded selectbox defaults (source lines 183-199) -/

/-- `ar_options` (line 183). -/
def ar_options : List String := ["16:9", "9:16", "1:1", "4:3", "3:4"]

/-- `res_options` (line 184). -/
def res_options : List String := ["720p", "1080p"]

/-- Python `list.index(v)`: the position of the first occurrence of `v`,
or no result where Python raises `ValueError`. -/
def list_index (l : List String) (v : String) : Option Nat :=
  match l with
  | [] => none
  | x :: xs => if x = v then some 0 else (list_index xs v).map (· + 1)

/-- Lines 186-189: `ar_idx = ar_options.index(...)` with the
`ValueError` caught and replaced by `0`. -/
def ar_idx (stored : String) : Nat :=
  (list_index ar_options stored).getD 0

/-- Lines 191-194: `res_idx = res_options.index(...)` with the
`ValueError` caught and replaced by `1`. -/
def res_idx (stored : String) : Nat :=
  (list_index res_options stored).getD 1

/-- The option a selectbox initially shows: `options[index]`. -/
def selectbox_shown (options : List String) (index : Nat) : String :=
  options.getD index ""

/-- A value absent from a list has no index. -/
theorem list_index_eq_none_of_not_mem {l : List String} {v : String}
    (h : v ∉ l) : list_index l v = none := by
  induction l with
  | nil => rfl
  | cons x xs ih =>
      simp only [List.mem_cons, not_or] at h
      simp only [list_index, ih h.2, Option.map_none']
      exact if_neg (fun hx => h.1 hx.symm)

/-- C3 -- A stored `aspect_ratio` outside `{16:9, 9:16, 1:1, 4:3, 3:4}`
makes the editing surface fall back to the first option `16:9`, and a
stored `resolution` outside `{720p, 1080p}` falls back to the second
option `1080p`; the index-lookup failure is absorbed by the `try/except`
guards (the embedding is total: no error value exists to surface). -/
theorem invalid_enum_falls_back (ar_stored res_stored : String)
    (har : ar_stored ∉ ar_options) (hres : res_stored ∉ res_options) :
    selectbox_shown ar_options (ar_idx ar_stored) = "16:9" ∧
    selectbox_shown res_options (res_idx res_stored) = "1080p" := by
  constructor
  · simp only [ar_idx, list_index_eq_none_of_not_mem har, Option.getD_none]
    rfl
  · simp only [res_idx, list_index_eq_none_of_not_mem hres, Option.getD_none]
    rfl

/-- Witness for C3: the spec's own examples, stored `21:9` and `4k`. -/
theorem invalid_enum_falls_back_witness :
    ("21:9" ∉ ar_options ∧ "4k" ∉ res_options) ∧
    (selectbox_shown ar_options (ar_idx "21:9") = "16:9" ∧
     selectbox_shown res_options (res_idx "4k") = "1080p") :=
  ⟨⟨by decide, by decide⟩,
   invalid_enum_falls_back "21:9" "4k" (by decide) (by decide)⟩

/-- C4 -- Every value the Duration widget of line 201 hands to the
`duration_sec` assignment lies in `[1, 60]` (out-of-range entries are
clamped by the widget's bounds), in-range entries pass through
unchanged — in particular both boundary values 1 and 60 are accepted —
and the editing pass stores exactly the widget's value. -/
theorem duration_clamped_to_range (session : VeoData) (w : WidgetInputs) :
    1 ≤ duration_widget w.dur_entry ∧
    duration_widget w.dur_entry ≤ 60 ∧
    (1 ≤ w.dur_entry → w.dur_entry ≤ 60 →
      duration_widget w.dur_entry = w.dur_entry) ∧
    (edit_pass session w).technical_settings.duration_sec =
      duration_widget w.dur_entry := by
  refine ⟨?_, ?_, ?_, rfl⟩
  · simp only [duration_widget, number_input, le_min_iff, le_max_iff]
    exact ⟨by norm_num, Or.inl le_rfl⟩
  · exact min_le_left _ _
  · intro h1 h60
    simp only [duration_widget, number_input, max_eq_right h1, min_eq_right h60]

/-- Witness for C4: the boundary entry 60 is accepted verbatim. -/
theorem duration_clamped_to_range_witness :
    (1 : Int) ≤ duration_widget 60 ∧ duration_widget 60 ≤ 60 ∧
    duration_widget 60 = 60 := by
  have h := duration_clamped_to_range
    ⟨⟨"t", "c"⟩, ⟨"", "", "", "", ""⟩, ⟨"", "", ""⟩, ⟨"16:9", 8, "720p"⟩⟩
    ⟨"t", "", "", "", "", "", "", "", "", "16:9", "720p", 60⟩
  exact ⟨h.1, h.2.1, h.2.2.1 (by decide) (by decide)⟩

/-! ## The export file name (source lines 214-217) -/

/-- The whitespace characters removed by Python `str.strip()` (for ASCII
input): space, tab, newline, carriage return, vertical tab, form feed. -/
def is_py_space (c : Char) : Bool :=
  c = ' ' || c = '\t' || c = '\n' || c = '\r' || c = '\x0b' || c = '\x0c'

/-- Python `str.strip()`: drop leading and trailing whitespace. -/
def py_strip (s : String) : String :=
  String.mk (((s.toList.dropWhile is_py_space).reverse.dropWhile
    is_py_space).reverse)

/-- Python `str.replace(" ", "_")`: with a one-character pattern and a
one-character replacement this is exactly a character map. -/
def replace_spaces (s : String) : String :=
  String.mk (s.toList.map (fun c => if c = ' ' then '_' else c))

/-- Python `created_at.split("T")[0]`: the prefix before the first `T`
(the whole string when no `T` occurs). -/
def date_part (s : String) : String :=
  String.mk (s.toList.takeWhile (fun c => !(c = 'T')))

/-- Line 215: `safe_title = ...title.strip().replace(" ", "_")`. -/
def safe_title (title : String) : String :=
  replace_spaces (py_strip title)

/-- Lines 215-217: `file_name = f"{safe_title}_{date_str}.json"`. -/
def file_name (d : VeoData) : String :=
  safe_title d.project_meta.title ++ "_" ++
    date_part d.project_meta.created_at ++ ".json"

/-- A session state with the given metadata and otherwise the default
initial field values of lines 116-121. -/
def sample_data (title created_at : String) : VeoData :=
  ⟨⟨title, created_at⟩, ⟨"", "", "", "", ""⟩, ⟨"", "", ""⟩, ⟨"16:9", 8, "720p"⟩⟩

/-- Modelled from the spec: the claimed naming convention
`{title_with_spaces_replaced_by_underscores}_{YYYY-MM-DD}.json`, taking
the title exactly as stored (no stripping step is mentioned). -/
def claimed_file_name (title created_at : String) : String :=
  replace_spaces title ++ "_" ++ date_part created_at ++ ".json"

/-- Modelled from the spec, amended: the naming convention with the
stripping step the source performs first — leading and trailing
whitespace of the title is removed before spaces become underscores. -/
def amended_file_name (title created_at : String) : String :=
  replace_spaces (py_strip title) ++ "_" ++ date_part created_at ++ ".json"

/-- Counterexample to C5 as stated: for the stored title
`" cyberpunk robot "` the source first strips the outer spaces, so the
produced name `cyberpunk_robot_2024-05-01.json` differs from the
claimed `_cyberpunk_robot__2024-05-01.json`. -/
theorem file_name_not_claimed_file_name :
    file_name (sample_data " cyberpunk robot " "2024-05-01T10:00:00") ≠
      claimed_file_name " cyberpunk robot " "2024-05-01T10:00:00" := by
  decide

/-- C5 (amended) -- The export file name is the title stripped of
leading and trailing whitespace with each space replaced by an
underscore, then an underscore, then the calendar-date portion of
`created_at`, then `.json`; in particular title `"cyberpunk robot"`
with `created_at` `"2024-05-01T10:00:00"` yields exactly
`cyberpunk_robot_2024-05-01.json`. -/
theorem file_name_convention :
    (∀ d : VeoData,
      file_name d =
        amended_file_name d.project_meta.title d.project_meta.created_at) ∧
    file_name (sample_data "cyberpunk robot" "2024-05-01T10:00:00") =
      "cyberpunk_robot_2024-05-01.json" := by
  exact ⟨fun d => rfl, by decide⟩

/-- C10 -- The file name transformation only strips outer whitespace and
maps spaces to underscores: every character of `safe_title` other than
an underscore occurs verbatim in the stored title, so a
filesystem-unsafe title such as `"demo/video: final"` puts `/` and `:`
verbatim into the produced file name. -/
theorem safe_title_alters_only_spaces :
    (∀ t : String, ∀ c : Char,
      c ∈ (safe_title t).toList → c = '_' ∨ c ∈ t.toList) ∧
    safe_title "  demo/video: final  " = "demo/video:_final" ∧
    file_name (sample_data "demo/video: final" "2024-05-01T10:00:00") =
      "demo/video:_final_2024-05-01.json" ∧
    '/' ∈ (file_name (sample_data "demo/video: final"
      "2024-05-01T10:00:00")).toList ∧
    ':' ∈ (file_name (sample_data "demo/video: final"
      "2024-05-01T10:00:00")).toList := by
  refine ⟨?_, by decide, by decide, by decide, by decide⟩
  intro t c hc
  replace hc : c ∈ (py_strip t).toList.map (fun c => if c = ' ' then '_' else c) :=
    hc
  rcases List.mem_map.mp hc with ⟨x, hx, rfl⟩
  by_cases hsp : x = ' '
  · exact Or.inl (by simp [hsp])
  · refine Or.inr ?_
    simp only [if_neg hsp]
    replace hx : x ∈ ((t.toList.dropWhile is_py_space).reverse.dropWhile
        is_py_space).reverse := hx
    rw [List.mem_reverse] at hx
    have hx2 := (List.dropWhile_sublist _).subset hx
    rw [List.mem_reverse] at hx2
    exact (List.dropWhile_sublist _).subset hx2

/-- Witness for C10: the character `/` survives `safe_title` and indeed
occurs in the original title. -/
theorem safe_title_alters_only_spaces_witness :
    '/' ∈ (safe_title "a/b").toList ∧
    ('/' = '_' ∨ '/' ∈ ("a/b" : String).toList) :=
  ⟨by decide, safe_title_alters_only_spaces.1 "a/b" '/' (by decide)⟩

/-! ## JSON serialization (source line 214, `model_dump_json`)

The JSON value tree a pydantic `model_dump_json` produces for this
schema: nested objects whose leaves are strings, except `duration_sec`
which is an integer.  Keys follow the field declaration order of the
source. -/

/-- A JSON value, restricted to the shapes this schema produces. -/
inductive JVal where
  | jstr (s : String)
  | jint (n : Int)
  | jobj (fields : List (String × JVal))

/-- Serialization of `ProjectMeta` in declaration order. -/
def ProjectMeta.toJson (m : ProjectMeta) : JVal :=
  .jobj [("title", .jstr m.title), ("created_at", .jstr m.created_at)]

/-- Serialization of `VideoElements` in declaration order. -/
def VideoElements.toJson (v : VideoElements) : JVal :=
  .jobj [("subject", .jstr v.subject), ("action", .jstr v.action),
         ("context", .jstr v.context),
         ("cinematography", .jstr v.cinematography),
         ("style", .jstr v.style)]

/-- Serialization of `AudioElements` in declaration order. -/
def AudioElements.toJson (a : AudioElements) : JVal :=
  .jobj [("ambient_music", .jstr a.ambient_music), ("sfx", .jstr a.sfx),
         ("dialogue", .jstr a.dialogue)]

/-- Serialization of `TechnicalSettings` in declaration order
(`aspect_ratio`, `duration_sec`, `resolution`). -/
def TechnicalSettings.toJson (t : TechnicalSettings) : JVal :=
  .jobj [("aspect_ratio", .jstr t.aspect_ratio),
         ("duration_sec", .jint t.duration_sec),
         ("resolution", .jstr t.resolution)]

/-- Serialization of the root `VeoData` (`model_dump_json`, line 214):
the four top-level keys in declaration order. -/
def VeoData.toJson (d : VeoData) : JVal :=
  .jobj [("project_meta", d.project_meta.toJson),
         ("video_5_elements", d.video_5_elements.toJson),
         ("audio_3_elements", d.audio_3_elements.toJson),
         ("technical_settings", d.technical_settings.toJson)]

/-- Key lookup in a JSON object's field list (first occurrence). -/
def jlookup : List (String × JVal) → String → Option JVal
  | [], _ => none
  | (a, v) :: rest, k => if a = k then some v else jlookup rest k

/-- The string carried by a JSON value, when it is a string. -/
def JVal.asStr? : JVal → Option String
  | .jstr s => some s
  | _ => none

/-- The integer carried by a JSON value, when it is an integer. -/
def JVal.asInt? : JVal → Option Int
  | .jint n => some n
  | _ => none

/-- Modelled from the spec: deserialization of `ProjectMeta` (pydantic
`model_validate_json`, exercised by the spec's round-trip property but
not present in `src/`): each declared key must be present with a value
of the declared type. -/
def ProjectMeta.fromJson? (j : JVal) : Option ProjectMeta :=
  match j with
  | .jobj fs => do
      let title ← (jlookup fs "title").bind JVal.asStr?
      let created_at ← (jlookup fs "created_at").bind JVal.asStr?
      pure ⟨title, created_at⟩
  | _ => none

/-- Modelled from the spec: deserialization of `VideoElements`. -/
def VideoElements.fromJson? (j : JVal) : Option VideoElements :=
  match j with
  | .jobj fs => do
      let subject ← (jlookup fs "subject").bind JVal.asStr?
      let action ← (jlookup fs "action").bind JVal.asStr?
      let context ← (jlookup fs "context").bind JVal.asStr?
      let cinematography ← (jlookup fs "cinematography").bind JVal.asStr?
      let style ← (jlookup fs "style").bind JVal.asStr?
      pure ⟨subject, action, context, cinematography, style⟩
  | _ => none

/-- Modelled from the spec: deserialization of `AudioElements`. -/
def AudioElements.fromJson? (j : JVal) : Option AudioElements :=
  match j with
  | .jobj fs => do
      let ambient_music ← (jlookup fs "ambient_music").bind JVal.asStr?
      let sfx ← (jlookup fs "sfx").bind JVal.asStr?
      let dialogue ← (jlookup fs "dialogue").bind JVal.asStr?
      pure ⟨ambient_music, sfx, dialogue⟩
  | _ => none

/-- Modelled from the spec: deserialization of `TechnicalSettings`. -/
def TechnicalSettings.fromJson? (j : JVal) : Option TechnicalSettings :=
  match j with
  | .jobj fs => do
      let ar ← (jlookup fs "aspect_ratio").bind JVal.asStr?
      let dur ← (jlookup fs "duration_sec").bind JVal.asInt?
      let res ← (jlookup fs "resolution").bind JVal.asStr?
      pure ⟨ar, dur, res⟩
  | _ => none

/-- Modelled from the spec: deserialization of the root
`PromptSpecification` from its four-section JSON form. -/
def VeoData.fromJson? (j : JVal) : Option VeoData :=
  match j with
  | .jobj fs => do
      let pm ← (jlookup fs "project_meta").bind ProjectMeta.fromJson?
      let v ← (jlookup fs "video_5_elements").bind VideoElements.fromJson?
      let a ← (jlookup fs "audio_3_elements").bind AudioElements.fromJson?
      let t ← (jlookup fs "technical_settings").bind TechnicalSettings.fromJson?
      pure ⟨pm, v, a, t⟩
  | _ => none

/-- C6 -- Serialize-then-deserialize round-trips every
`PromptSpecification` to an equal structure, field for field, across
all four sub-records. -/
theorem toJson_fromJson_roundtrip (d : VeoData) :
    VeoData.fromJson? d.toJson = some d := by
  rfl

/-- The keys of a JSON object, in order. -/
def JVal.topKeys : JVal → List String
  | .jobj fs => fs.map Prod.fst
  | _ => []

/-- Whether key `k` of object `j` holds a string. -/
def JVal.strField (j : JVal) (k : String) : Bool :=
  match j with
  | .jobj fs =>
      match jlookup fs k with
      | some (.jstr _) => true
      | _ => false
  | _ => false

/-- Whether key `k` of object `j` holds an integer. -/
def JVal.intField (j : JVal) (k : String) : Bool :=
  match j with
  | .jobj fs =>
      match jlookup fs k with
      | some (.jint _) => true
      | _ => false
  | _ => false

/-- The sub-object stored at key `k` of object `j`. -/
def JVal.subObj (j : JVal) (k : String) : JVal :=
  match j with
  | .jobj fs => (jlookup fs k).getD (.jobj [])
  | _ => .jobj []

/-- C7 -- The serialization of any fully populated
`PromptSpecification` is a JSON object with exactly the four top-level
keys in order, each sub-object carrying exactly its declared fields,
`duration_sec` encoded as an integer and every other field as a
string. -/
theorem toJson_shape (d : VeoData) :
    d.toJson.topKeys =
      ["project_meta", "video_5_elements", "audio_3_elements",
       "technical_settings"] ∧
    (d.toJson.subObj "project_meta").topKeys = ["title", "created_at"] ∧
    (d.toJson.subObj "project_meta").strField "title" = true ∧
    (d.toJson.subObj "project_meta").strField "created_at" = true ∧
    (d.toJson.subObj "video_5_elements").topKeys =
      ["subject", "action", "context", "cinematography", "style"] ∧
    (d.toJson.subObj "video_5_elements").strField "subject" = true ∧
    (d.toJson.subObj "video_5_elements").strField "action" = true ∧
    (d.toJson.subObj "video_5_elements").strField "context" = true ∧
    (d.toJson.subObj "video_5_elements").strField "cinematography" = true ∧
    (d.toJson.subObj "video_5_elements").strField "style" = true ∧
    (d.toJson.subObj "audio_3_elements").topKeys =
      ["ambient_music", "sfx", "dialogue"] ∧
    (d.toJson.subObj "audio_3_elements").strField "ambient_music" = true ∧
    (d.toJson.subObj "audio_3_elements").strField "sfx" = true ∧
    (d.toJson.subObj "audio_3_elements").strField "dialogue" = true ∧
    (d.toJson.subObj "technical_settings").topKeys =
      ["aspect_ratio", "duration_sec", "resolution"] ∧
    (d.toJson.subObj "technical_settings").strField "aspect_ratio" = true ∧
    (d.toJson.subObj "technical_settings").intField "duration_sec" = true ∧
    (d.toJson.subObj "technical_settings").strField "resolution" = true := by
  exact ⟨rfl, rfl, rfl, rfl, rfl, rfl, rfl, rfl, rfl, rfl, rfl, rfl, rfl,
    rfl, rfl, rfl, rfl, rfl⟩
